import Mathlib

/-!
Shallow embedding of `src/config/airflow/dags/example_dag.py`.

The Python file is declarative: it builds a `default_args` dictionary, a
`DAG` object, two `BashOperator` objects registered against that DAG, and
one precedence edge `t1 >> t2`.  We embed the data model (datetime,
timedelta, the DAG descriptor, the operator records) and the result of
evaluating the module top to bottom, then prove the specification's
structural claims about the loaded configuration.
-/

/-- Python `datetime.datetime(year, month, day)`; the omitted time-of-day
components default to zero, as in CPython. -/
structure DateTime where
  year : Nat
  month : Nat
  day : Nat
  hour : Nat := 0
  minute : Nat := 0
  second : Nat := 0
  deriving DecidableEq, Repr

/-- Python `datetime.timedelta`, normalised to a total number of seconds
(the file only ever passes whole minutes or whole days). -/
structure TimeDelta where
  totalSeconds : Nat
  deriving DecidableEq, Repr

/-- `timedelta(minutes=m)`. -/
def TimeDelta.ofMinutes (m : Nat) : TimeDelta :=
  ⟨m * 60⟩

/-- `timedelta(days=d)`. -/
def TimeDelta.ofDays (d : Nat) : TimeDelta :=
  ⟨d * 86400⟩

/-- The `default_args` dictionary of the file: the default execution
policy handed to the DAG. Field names follow the dictionary keys. -/
structure DefaultArgs where
  owner : String
  depends_on_past : Bool
  start_date : DateTime
  email_on_failure : Bool
  email_on_retry : Bool
  retries : Nat
  retry_delay : TimeDelta
  deriving DecidableEq, Repr

/-- The Airflow `DAG` constructor arguments used by the file: the workflow
descriptor. -/
structure DAG where
  dag_id : String
  default_args : DefaultArgs
  description : String
  schedule_interval : TimeDelta
  catchup : Bool
  deriving DecidableEq, Repr

/-- The Airflow `BashOperator` constructor arguments used by the file: an
execution unit with a back-reference to its owning DAG. -/
structure BashOperator where
  task_id : String
  bash_command : String
  dag : DAG
  deriving DecidableEq, Repr

/-- `default_args = {...}` (lines 9-17 of the file). -/
def default_args : DefaultArgs :=
  { owner := "devarch"
    depends_on_past := false
    start_date := { year := 2024, month := 1, day := 1 }
    email_on_failure := false
    email_on_retry := false
    retries := 1
    retry_delay := TimeDelta.ofMinutes 5 }

/-- `dag = DAG('example_devarch', ...)` (lines 19-25 of the file). -/
def dag : DAG :=
  { dag_id := "example_devarch"
    default_args := default_args
    description := "Example DAG for DevArch"
    schedule_interval := TimeDelta.ofDays 1
    catchup := false }

/-- `t1 = BashOperator(task_id='print_date', bash_command='date', dag=dag)`
(lines 27-31 of the file). -/
def t1 : BashOperator :=
  { task_id := "print_date", bash_command := "date", dag := dag }

/-- `t2 = BashOperator(task_id='hello_world', ..., dag=dag)`
(lines 33-37 of the file). -/
def t2 : BashOperator :=
  { task_id := "hello_world"
    bash_command := "echo \"Hello from DevArch workflow!\""
    dag := dag }

/-- Airflow's `a >> b`: append one directed precedence edge, identified by
the two task ids, to the DAG's edge list. -/
def rshift (a b : BashOperator) (edges : List (String × String)) :
    List (String × String) :=
  edges ++ [(a.task_id, b.task_id)]

/-- The observable result of evaluating the module: the workflow
descriptor, the execution units registered against it (in creation order),
and the precedence edges declared between them. -/
structure LoadedModule where
  dag : DAG
  tasks : List BashOperator
  edges : List (String × String)
  deriving DecidableEq, Repr

/-- Evaluating the module top to bottom.  The parameter `now` is the
ambient wall-clock instant at load time; the file imports `datetime` but
never consults the clock, so `now` is unused and the result is a constant.
Tasks are registered in creation order (`t1`, then `t2`), and line 39
(`t1 >> t2`) contributes the single edge via `rshift`. -/
def loadModule (now : DateTime) : LoadedModule :=
  { dag := dag
    tasks := [t1, t2]
    edges := rshift t1 t2 [] }

/-- Evaluating the module in the presence of arbitrary external state
`ext` (of any type `σ`): the file contains only construction of its own
objects — no statement reads or writes anything outside the module — so
the external state is passed through untouched alongside the loaded
configuration. -/
def loadModuleEff (σ : Type) (ext : σ) (now : DateTime) : LoadedModule × σ :=
  (loadModule now, ext)

/-- `a` precedes `b` in the loaded module: the edge `(a, b)` is in the
edge list. -/
def precedes (m : LoadedModule) (a b : String) : Prop :=
  (a, b) ∈ m.edges

instance (m : LoadedModule) (a b : String) : Decidable (precedes m a b) := by
  unfold precedes
  infer_instance

/-- C1: loading the workflow file yields exactly two execution units, with
identifiers `print_date` and `hello_world` and shell command strings
`date` and `echo "Hello from DevArch workflow!"` respectively, and no
other execution unit is created. -/
theorem load_yields_exactly_two_tasks (now : DateTime) :
    (loadModule now).tasks.map (fun t => (t.task_id, t.bash_command)) =
      [("print_date", "date"),
       ("hello_world", "echo \"Hello from DevArch workflow!\"")] := by
  rfl

/-- C2: the precedence relation produced by the file contains exactly one
edge, from `print_date` to `hello_world`: for every pair of task ids
`(a, b)`, `a` precedes `b` iff `a = "print_date"` and
`b = "hello_world"`. -/
theorem precedence_is_single_edge (now : DateTime) (a b : String) :
    precedes (loadModule now) a b ↔ a = "print_date" ∧ b = "hello_world" := by
  simp [precedes, loadModule, rshift, t1, t2, Prod.ext_iff]

/-- C3: the workflow descriptor's default execution policy sets the retry
count to exactly 1 and the retry delay to exactly 5 minutes. -/
theorem retry_policy (now : DateTime) :
    (loadModule now).dag.default_args.retries = 1 ∧
      (loadModule now).dag.default_args.retry_delay = TimeDelta.ofMinutes 5 := by
  exact ⟨rfl, rfl⟩

/-- C4: the workflow descriptor's schedule cadence is exactly one day and
its catch-up policy is disabled. -/
theorem schedule_and_catchup (now : DateTime) :
    (loadModule now).dag.schedule_interval = TimeDelta.ofDays 1 ∧
      (loadModule now).dag.catchup = false := by
  exact ⟨rfl, rfl⟩

/-- C5: both the failure-notification and retry-notification email flags
in the default execution policy are disabled. -/
theorem email_flags_disabled (now : DateTime) :
    (loadModule now).dag.default_args.email_on_failure = false ∧
      (loadModule now).dag.default_args.email_on_retry = false := by
  exact ⟨rfl, rfl⟩

/-- C6: the workflow descriptor carries identifier `example_devarch`,
description `Example DAG for DevArch`, owner tag `devarch`, and start
date January 1, 2024. -/
theorem descriptor_identity (now : DateTime) :
    (loadModule now).dag.dag_id = "example_devarch" ∧
      (loadModule now).dag.description = "Example DAG for DevArch" ∧
      (loadModule now).dag.default_args.owner = "devarch" ∧
      (loadModule now).dag.default_args.start_date =
        { year := 2024, month := 1, day := 1 } := by
  exact ⟨rfl, rfl, rfl, rfl⟩

/-- C7: every execution unit created by the file holds a back-reference
to its owning workflow descriptor, and for both units that reference is
the same single descriptor, whose identifier is `example_devarch`. -/
theorem tasks_reference_owning_dag (now : DateTime) :
    ∀ t ∈ (loadModule now).tasks,
      t.dag = (loadModule now).dag ∧ t.dag.dag_id = "example_devarch" := by
  intro t ht
  simp [loadModule] at ht
  rcases ht with h | h <;> subst h <;> exact ⟨rfl, rfl⟩

/-- Witness for C7: the first execution unit, `t1`, is among the loaded
tasks and points back at the loaded workflow descriptor. -/
theorem tasks_reference_owning_dag_witness :
    t1.dag = (loadModule { year := 2026, month := 10, day := 12 }).dag ∧
      t1.dag.dag_id = "example_devarch" :=
  tasks_reference_owning_dag { year := 2026, month := 10, day := 12 } t1
    (by simp [loadModule])

/-- C8: loading the file performs no validation, mutation, or teardown:
every literal of the file appears unchanged in the resulting descriptor
and execution units, and any external state is left unmodified. -/
theorem load_is_pure_passthrough (σ : Type) (ext : σ) (now : DateTime) :
    (loadModuleEff σ ext now).2 = ext ∧
      (loadModuleEff σ ext now).1 =
        { dag :=
            { dag_id := "example_devarch"
              default_args :=
                { owner := "devarch"
                  depends_on_past := false
                  start_date := { year := 2024, month := 1, day := 1 }
                  email_on_failure := false
                  email_on_retry := false
                  retries := 1
                  retry_delay := TimeDelta.ofMinutes 5 }
              description := "Example DAG for DevArch"
              schedule_interval := TimeDelta.ofDays 1
              catchup := false }
          tasks :=
            [{ task_id := "print_date", bash_command := "date", dag := dag },
             { task_id := "hello_world"
               bash_command := "echo \"Hello from DevArch workflow!\""
               dag := dag }]
          edges := [("print_date", "hello_world")] } := by
  exact ⟨rfl, rfl⟩

/-- C9: the default execution policy sets `depends_on_past` to false, so
no execution unit's run is conditioned on the outcome of the same unit in
a previous scheduled run. -/
theorem depends_on_past_disabled (now : DateTime) :
    (loadModule now).dag.default_args.depends_on_past = false := by
  rfl

/-- C10: evaluating the file is deterministic: any two loads — at any two
wall-clock instants — produce identical workflow descriptors, execution
units, and precedence edges, because every configured value (including
the start date, a fixed literal rather than the current time) is a
compile-time constant. -/
theorem load_is_deterministic (now₁ now₂ : DateTime) :
    loadModule now₁ = loadModule now₂ := by
  rfl
